import Mathlib

/-!
Shallow embedding of `src/linkedin_scheduler.py` (aakarshjaindev/automate_social_media).

The script keeps two pieces of global credential state (`token_info`, a dict whose
single relevant key is `access_token`, and `user_urn`, an optional string), a
publisher `post_linkedin_update`, an interactive OAuth flow `perform_oauth_flow`,
and an APScheduler-backed task runner (`schedule_linkedin_post`,
`list_scheduled_posts`).

Modelling conventions:
- Python `None`-able strings are `Option String`; Python truthiness of such a
  value (`not x`) is `pyTruthy x = false` (false for `None` and for `""`).
- `token_info` is `Option (Option String)`: `none` means the dict is empty or
  lacks the `access_token` key (the guard checks both dict truthiness and key
  membership); `some v` means the key is present with value `v` (which may
  itself be `None`, i.e. inner `none`).
- `datetime` values are an absolute count of microseconds since the epoch
  (`usecs`); `int(post_time.timestamp())` is truncation toward zero, `Int.tdiv`.
- Python string `hash` is deterministic within one process run; it is passed in
  as an arbitrary function `h : String → Int`.
- The network is an oracle argument: an inductive outcome for the single HTTP
  call the publisher makes, and outcomes for the token-exchange and
  identity-lookup calls of the OAuth flow.  Exceptions raised and caught inside
  the source are modelled with an explicit `PyOutcome` so that "no exception
  escapes" is a provable statement, not a typing triviality.
- `logging` calls are recorded as an event list in each trace.
-/

/-- Python truthiness of an optional string: `None` and `""` are falsy. -/
def pyTruthy : Option String → Bool
  | none => false
  | some s => s ≠ ""

/-- The global credential state of the script: `token_info` and `user_urn`. -/
structure CredState where
  tokenInfo : Option (Option String)
  userUrn : Option String
deriving DecidableEq, Repr

/-- A Python exception class, as discriminated by the handlers in the
publisher: a request exception (transport errors and the HTTPError raised by
the status check) versus any other exception. -/
inductive PyExc where
  | requestException
  | otherExc
deriving DecidableEq, Repr

/-- Result of running a block of Python code: a value, or a raised exception. -/
inductive PyOutcome (α : Type) where
  | ok (a : α)
  | raised (e : PyExc)
deriving DecidableEq, Repr

/-- Outcome of the one outbound HTTP POST made by `post_linkedin_update`:
a transport-level failure, a response with a status code, or some other
unexpected exception during posting. -/
inductive NetOutcome where
  | transportError
  | response (status : Nat)
  | otherException
deriving DecidableEq, Repr

/-- The requests-library status check (raise for status) raises an HTTPError
exactly for status codes 400–599. -/
def raiseForStatusRaises (status : Nat) : Bool :=
  decide (400 ≤ status ∧ status < 600)

/-- Log events emitted by `post_linkedin_update`. -/
inductive PubLog where
  | errNoToken
  | errNoUrn
  | infoPosted
  | errPosting
  | errUnexpected
deriving DecidableEq, Repr

/-- Observable trace of one `post_linkedin_update` call: the returned value
(or an escaped exception), how many outbound HTTP requests were issued, the
body text sent on the request if one was issued, and the log events. -/
structure PublishTrace where
  result : PyOutcome Bool
  requests : Nat
  sentBody : Option String
  log : List PubLog
deriving DecidableEq, Repr

/-- The try-block of `post_linkedin_update` once the request has been sent:
the status check raises for 400–599; transport errors raise a request
exception; anything else unexpected raises a non-request exception. -/
def postTryBody (net : NetOutcome) : PyOutcome Bool :=
  match net with
  | .transportError => .raised .requestException
  | .otherException => .raised .otherExc
  | .response s =>
      if raiseForStatusRaises s then .raised .requestException else .ok true

/-- Function `post_linkedin_update`: guards on the `access_token` key and
on `user_urn` truthiness before any network activity; then issues exactly one
POST and converts every exception from it into a `False` return. -/
def post_linkedin_update (st : CredState) (textContent : String)
    (net : NetOutcome) : PublishTrace :=
  if st.tokenInfo = none then
    ⟨.ok false, 0, none, [.errNoToken]⟩
  else if pyTruthy st.userUrn = false then
    ⟨.ok false, 0, none, [.errNoUrn]⟩
  else
    match postTryBody net with
    | .ok b => ⟨.ok b, 1, some textContent, [.infoPosted]⟩
    | .raised .requestException => ⟨.ok false, 1, some textContent, [.errPosting]⟩
    | .raised .otherExc => ⟨.ok false, 1, some textContent, [.errUnexpected]⟩

/-- Modelled from the spec: the `MissingCredential` failure class of the spec
is absent from the source as a named value; it names the two pre-network
failure log events of the source (missing `access_token` key; unset/empty
`user_urn`). -/
def isMissingCredential : PubLog → Bool
  | .errNoToken => true
  | .errNoUrn => true
  | _ => false

/-- Outcome of `OAuth2Session.fetch_token`: it raises on a missing code, a
mismatching `state` parameter, a network error or a non-2xx token response;
on success it returns the token dict, whose `access_token` entry we keep. -/
inductive FetchTokenOutcome where
  | raises
  | ok (accessToken : String)
deriving DecidableEq, Repr

/-- Outcome of `get_profile_info`: the GET fails (the helper catches the
exception and returns `None`), or it returns JSON without a usable `id`
field, or JSON carrying the id. -/
inductive ProfileOutcome where
  | requestFails
  | jsonNoId
  | jsonWithId (id : String)
deriving DecidableEq, Repr

/-- Log events emitted during `perform_oauth_flow` (including those of
`get_profile_info`). -/
inductive OAuthLog where
  | errMissingClientConfig
  | errNoRedirect
  | infoTokenObtained
  | errProfileFetch
  | errNoUrn
  | infoUrn
  | errExc
deriving DecidableEq, Repr

/-- Observable trace of one `perform_oauth_flow` call: the returned boolean,
the credential state after the call, whether an authorization URL was
constructed, how many calls reached the token endpoint and the profile
endpoint, and the log events. -/
structure OAuthTrace where
  success : Bool
  state : CredState
  builtAuthUrl : Bool
  tokenCalls : Nat
  profileCalls : Nat
  log : List OAuthLog
deriving DecidableEq, Repr

/-- Function `perform_oauth_flow`: checks client config, builds the authorization
URL, reads the pasted redirect URL, exchanges the code for a token
(assigning the global `token_info` as soon as the exchange succeeds), then
resolves the user URN.  Note the assignment order: `token_info` is replaced
before the identity lookup runs. -/
def perform_oauth_flow (clientId clientSecret : Option String) (st : CredState)
    (redirectResponse : String) (ft : FetchTokenOutcome) (pr : ProfileOutcome) :
    OAuthTrace :=
  if pyTruthy clientId = false ∨ pyTruthy clientSecret = false then
    ⟨false, st, false, 0, 0, [.errMissingClientConfig]⟩
  else if redirectResponse = "" then
    ⟨false, st, true, 0, 0, [.errNoRedirect]⟩
  else
    match ft with
    | .raises => ⟨false, st, true, 1, 0, [.errExc]⟩
    | .ok tok =>
      let st1 : CredState := ⟨some (some tok), st.userUrn⟩
      match pr with
      | .jsonWithId i =>
          ⟨true, ⟨some (some tok), some ("urn:li:person:" ++ i)⟩, true, 1, 1,
            [.infoTokenObtained, .infoUrn]⟩
      | .requestFails =>
          ⟨false, st1, true, 1, 1, [.infoTokenObtained, .errProfileFetch, .errNoUrn]⟩
      | .jsonNoId =>
          ⟨false, st1, true, 1, 1, [.infoTokenObtained, .errNoUrn]⟩

/-- A Python `datetime`, as an absolute count of microseconds since the epoch. -/
structure PyDatetime where
  usecs : Int
deriving DecidableEq, Repr

/-- The int-cast POSIX timestamp of a datetime, truncated toward zero to
whole seconds. -/
def intTimestamp (d : PyDatetime) : Int :=
  Int.tdiv d.usecs 1000000

/-- The job id derived in `schedule_linkedin_post`: the fixed prefix followed
by the truncated timestamp and the content hash, joined by underscores. -/
def job_id (d : PyDatetime) (textHash : Int) : String :=
  "linkedin_post_" ++ toString (intTimestamp d) ++ "_" ++ toString textHash

/-- An APScheduler job as `add_job` stores it: id, run date, positional args,
keyword args, display name. -/
structure Job where
  id : String
  runDate : PyDatetime
  args : List String
  kwargs : List (String × String)
  name : String
deriving DecidableEq, Repr

/-- Method add_job of the scheduler, with replace_existing, on a running scheduler:
a job whose id collides replaces the existing job; otherwise the job is
added. -/
def add_job (jobs : List Job) (j : Job) : List Job :=
  if jobs.any (fun k => k.id = j.id) then
    jobs.map (fun k => if k.id = j.id then j else k)
  else
    jobs ++ [j]

/-- The `post_time` argument of `schedule_linkedin_post`: a `datetime`, or a
value of any other type (rejected by the `isinstance` check). -/
inductive PostTimeArg where
  | dt (d : PyDatetime)
  | notDatetime
deriving DecidableEq, Repr

/-- Log events emitted by `schedule_linkedin_post`. -/
inductive SchedLog where
  | errNotDatetime
  | warnPastDue
  | infoScheduled
deriving DecidableEq, Repr

/-- Observable trace of one `schedule_linkedin_post` call: the job list after
the call, the Python return value (the source has no `return <value>`
statement, so a successful call returns `None`), and the log events. -/
structure ScheduleTrace where
  jobs : List Job
  returned : Option String
  log : List SchedLog
deriving DecidableEq, Repr

/-- Function `schedule_linkedin_post`: rejects non-`datetime`
trigger times with an error log and no job change; logs a warning when the
trigger time is strictly before `datetime.now()`; derives the job id from the
truncated timestamp and the content hash; adds the job with positional
`args=[text_content]`, empty keyword args, and `replace_existing=True`;
returns `None`. -/
def schedule_linkedin_post (h : String → Int) (now : PyDatetime)
    (postTime : PostTimeArg) (textContent : String) (jobs : List Job) :
    ScheduleTrace :=
  match postTime with
  | .notDatetime => ⟨jobs, none, [.errNotDatetime]⟩
  | .dt d =>
    let warnLog : List SchedLog := if d.usecs < now.usecs then [.warnPastDue] else []
    let j : Job :=
      ⟨job_id d (h textContent), d, [textContent], [],
        "LinkedIn: " ++ textContent.take 30 ++ "..."⟩
    ⟨add_job jobs j, none, warnLog ++ [.infoScheduled]⟩

/-- The content column printed by `list_scheduled_posts` for one job: the
kwargs lookup of the key text_content, with default value N/A. -/
def listedContent (j : Job) : String :=
  match j.kwargs.find? (fun p => p.1 = "text_content") with
  | some p => p.2
  | none => "N/A"

/-- Function `list_scheduled_posts`: for each pending job, prints its id, its
run time, and the content looked up in `kwargs`. -/
def list_scheduled_posts (jobs : List Job) : List (String × PyDatetime × String) :=
  jobs.map (fun j => (j.id, j.runDate, listedContent j))

/-! Helper lemmas about `add_job`. -/

/-- After `add_job`, some pending job carries the id of the added job. -/
theorem add_job_any_id (jobs : List Job) (j : Job) :
    (add_job jobs j).any (fun k => k.id = j.id) = true := by
  unfold add_job
  by_cases h : jobs.any (fun k => k.id = j.id) = true
  · rw [if_pos h]
    obtain ⟨k, hk, hkid⟩ := List.any_eq_true.mp h
    refine List.any_eq_true.mpr ⟨j, ?_, by simp⟩
    refine List.mem_map.mpr ⟨k, hk, ?_⟩
    have : k.id = j.id := of_decide_eq_true hkid
    simp [this]
  · rw [if_neg h]
    refine List.any_eq_true.mpr ⟨j, ?_, by simp⟩
    simp

/-- Adding a job whose id already occurs keeps the number of pending jobs. -/
theorem add_job_replace_length (jobs : List Job) (j : Job)
    (h : jobs.any (fun k => k.id = j.id) = true) :
    (add_job jobs j).length = jobs.length := by
  unfold add_job
  rw [if_pos h]
  simp

/-- C10: calling `schedule_linkedin_post` with a non-datetime trigger time
logs an error and returns without adding any job: the pending set is
unchanged, no warning or scheduling log is produced, and no task identifier
is returned (the return value is None). -/
theorem C10_non_datetime_rejected (h : String → Int) (now : PyDatetime)
    (text : String) (jobs : List Job) :
    schedule_linkedin_post h now .notDatetime text jobs =
      ⟨jobs, none, [.errNotDatetime]⟩ := rfl

/-- C1: the code evaluated at the failing input.  Scheduling one post with
text hello on an empty scheduler yields exactly one pending job (the
replacement machinery works), but the listing displays N/A in the content
column, not the text of the task: the job stores the text in positional args
while the listing reads keyword args. -/
theorem C1_listing_shows_na :
    list_scheduled_posts
        (schedule_linkedin_post (fun _ => 7) ⟨0⟩ (.dt ⟨120000000⟩) "hello" []).jobs
      = [("linkedin_post_120_7", ⟨120000000⟩, "N/A")] := by
  rfl

/-- C2: with the `access_token` key absent from `token_info`, or with
`user_urn` unset/empty, `post_linkedin_update` issues no network request,
returns False, and every log event it emits is in the MissingCredential
failure class. -/
theorem C2_missing_credential_no_network (st : CredState) (text : String)
    (net : NetOutcome)
    (h : st.tokenInfo = none ∨ pyTruthy st.userUrn = false) :
    (post_linkedin_update st text net).requests = 0 ∧
    (post_linkedin_update st text net).result = .ok false ∧
    (post_linkedin_update st text net).log.all isMissingCredential = true ∧
    (post_linkedin_update st text net).log ≠ [] := by
  rcases h with h | h
  · simp [post_linkedin_update, h, isMissingCredential]
  · by_cases htok : st.tokenInfo = none
    · simp [post_linkedin_update, htok, isMissingCredential]
    · simp [post_linkedin_update, htok, h, isMissingCredential]

/-- Witness for C2 at a concrete input: token dict lacking the key. -/
theorem C2_missing_credential_no_network_witness :
    (post_linkedin_update ⟨none, some "u"⟩ "t" .transportError).requests = 0 ∧
    (post_linkedin_update ⟨none, some "u"⟩ "t" .transportError).result = .ok false ∧
    (post_linkedin_update ⟨none, some "u"⟩ "t" .transportError).log.all
      isMissingCredential = true ∧
    (post_linkedin_update ⟨none, some "u"⟩ "t" .transportError).log ≠ [] :=
  C2_missing_credential_no_network ⟨none, some "u"⟩ "t" .transportError (Or.inl rfl)

/-- C7: with the client id or the client secret missing (or empty),
`perform_oauth_flow` fails with the MissingClientConfig error log before
constructing any authorization URL and before contacting the token or
profile endpoints, and it leaves the credential state unchanged. -/
theorem C7_missing_client_config (cid csec : Option String) (st : CredState)
    (rr : String) (ft : FetchTokenOutcome) (pr : ProfileOutcome)
    (h : pyTruthy cid = false ∨ pyTruthy csec = false) :
    perform_oauth_flow cid csec st rr ft pr =
      ⟨false, st, false, 0, 0, [.errMissingClientConfig]⟩ := by
  unfold perform_oauth_flow
  rw [if_pos h]

/-- Witness for C7 at a concrete input: client id unset in the environment. -/
theorem C7_missing_client_config_witness :
    perform_oauth_flow none (some "sec") ⟨none, none⟩ "cb" (.ok "tok") .jsonNoId =
      ⟨false, ⟨none, none⟩, false, 0, 0, [.errMissingClientConfig]⟩ :=
  C7_missing_client_config none (some "sec") ⟨none, none⟩ "cb" (.ok "tok") .jsonNoId
    (Or.inl rfl)

/-- C8: the publisher is total on its error paths: for every credential
state, text and network outcome it returns a boolean (no exception escapes),
and every error class — transport error, HTTP-status error raised by the
status check, or any other unexpected exception during posting — results in
a False return. -/
theorem C8_publish_total_on_errors :
    (∀ (st : CredState) (text : String) (net : NetOutcome), ∃ b : Bool,
        (post_linkedin_update st text net).result = .ok b) ∧
    (∀ (st : CredState) (text : String) (net : NetOutcome),
        (net = .transportError ∨ net = .otherException ∨
          ∃ s, net = .response s ∧ raiseForStatusRaises s = true) →
        (post_linkedin_update st text net).result = .ok false) := by
  constructor
  · intro st text net
    unfold post_linkedin_update
    by_cases htok : st.tokenInfo = none
    · exact ⟨false, by simp [htok]⟩
    · by_cases hurn : pyTruthy st.userUrn = false
      · exact ⟨false, by simp [htok, hurn]⟩
      · cases hbody : postTryBody net with
        | ok b => exact ⟨b, by simp [htok, hurn, hbody]⟩
        | raised e =>
          cases e with
          | requestException => exact ⟨false, by simp [htok, hurn, hbody]⟩
          | otherExc => exact ⟨false, by simp [htok, hurn, hbody]⟩
  · intro st text net herr
    have hbody : postTryBody net = .raised .requestException ∨
        postTryBody net = .raised .otherExc := by
      rcases herr with h | h | ⟨s, h, hs⟩
      · exact Or.inl (by simp [h, postTryBody])
      · exact Or.inr (by simp [h, postTryBody])
      · exact Or.inl (by simp [h, postTryBody, hs])
    unfold post_linkedin_update
    by_cases htok : st.tokenInfo = none
    · simp [htok]
    · by_cases hurn : pyTruthy st.userUrn = false
      · simp [htok, hurn]
      · rcases hbody with h | h <;> simp [htok, hurn, h]

/-- Witness for C8 at a concrete input: a transport error with a present
credential is converted to a False return. -/
theorem C8_publish_total_on_errors_witness :
    (post_linkedin_update ⟨some (some "tok"), some "urn:li:person:X"⟩ "x"
        .transportError).result = .ok false :=
  C8_publish_total_on_errors.2 ⟨some (some "tok"), some "urn:li:person:X"⟩ "x"
    .transportError (Or.inl rfl)

/-- C9: the derived job identifier truncates the trigger time to whole
seconds: two submissions with the same text whose trigger times lie in the
same truncated second but differ in microseconds derive the same identifier,
so scheduling both (on an empty scheduler) leaves exactly one pending job,
carrying the second trigger time. -/
theorem C9_subsecond_truncation_replaces (h : String → Int) (now : PyDatetime)
    (text : String) (d1 d2 : PyDatetime)
    (hsec : intTimestamp d1 = intTimestamp d2) (_hne : d1 ≠ d2) :
    job_id d1 (h text) = job_id d2 (h text) ∧
    (schedule_linkedin_post h now (.dt d2) text
        (schedule_linkedin_post h now (.dt d1) text []).jobs).jobs =
      [⟨job_id d2 (h text), d2, [text], [],
        "LinkedIn: " ++ text.take 30 ++ "..."⟩] := by
  have hid : job_id d1 (h text) = job_id d2 (h text) := by
    unfold job_id
    rw [hsec]
  refine ⟨hid, ?_⟩
  simp only [schedule_linkedin_post, add_job, List.any_nil, List.any_cons,
    Bool.false_or, if_false, List.nil_append, hid]
  simp

/-- Witness for C9 at concrete inputs in the same truncated second. -/
theorem C9_subsecond_truncation_replaces_witness :
    job_id ⟨5000000⟩ 7 = job_id ⟨5500000⟩ 7 ∧
    (schedule_linkedin_post (fun _ => 7) ⟨0⟩ (.dt ⟨5500000⟩) "x"
        (schedule_linkedin_post (fun _ => 7) ⟨0⟩ (.dt ⟨5000000⟩) "x" []).jobs).jobs =
      [⟨job_id ⟨5500000⟩ 7, ⟨5500000⟩, ["x"], [],
        "LinkedIn: " ++ "x".take 30 ++ "..."⟩] :=
  C9_subsecond_truncation_replaces (fun _ => 7) ⟨0⟩ "x" ⟨5000000⟩ ⟨5500000⟩
    (by decide) (by decide)

/-- C6 counterexample: a successful schedule call returns None — the task
identifier is not returned to the caller, refuting the clause that the call
returns the identifier of the task. -/
theorem C6_returns_none_counterexample :
    (schedule_linkedin_post (fun _ => 0) ⟨2000000⟩ (.dt ⟨1000000⟩) "x" []).returned
        = none ∧
    ∀ s : String,
      (schedule_linkedin_post (fun _ => 0) ⟨2000000⟩ (.dt ⟨1000000⟩) "x" []).returned
        ≠ some s :=
  ⟨rfl, fun _ hs => Option.noConfusion hs⟩

/-- C6 (amended): `schedule_linkedin_post` accepts every datetime trigger
time, including values strictly in the past: a past-due task is not rejected
but added to the pending set under its derived identifier, a past-due
warning is logged, and the call returns None rather than the identifier. -/
theorem C6_past_due_accepted (h : String → Int) (now : PyDatetime)
    (d : PyDatetime) (text : String) (jobs : List Job)
    (hpast : d.usecs < now.usecs) :
    ((schedule_linkedin_post h now (.dt d) text jobs).jobs.any
        (fun j => j.id = job_id d (h text))) = true ∧
    (schedule_linkedin_post h now (.dt d) text jobs).log =
      [.warnPastDue, .infoScheduled] ∧
    (schedule_linkedin_post h now (.dt d) text jobs).returned = none := by
  refine ⟨?_, ?_, rfl⟩
  · exact add_job_any_id jobs _
  · simp [schedule_linkedin_post, hpast]

/-- Witness for C6 at a concrete past-due input. -/
theorem C6_past_due_accepted_witness :
    ((schedule_linkedin_post (fun _ => 0) ⟨2000000⟩ (.dt ⟨1000000⟩) "x" []).jobs.any
        (fun j => j.id = job_id ⟨1000000⟩ 0)) = true ∧
    (schedule_linkedin_post (fun _ => 0) ⟨2000000⟩ (.dt ⟨1000000⟩) "x" []).log =
      [.warnPastDue, .infoScheduled] ∧
    (schedule_linkedin_post (fun _ => 0) ⟨2000000⟩ (.dt ⟨1000000⟩) "x" []).returned
      = none :=
  C6_past_due_accepted (fun _ => 0) ⟨2000000⟩ ⟨1000000⟩ "x" [] (by decide)

/-- C3 counterexample: with a present credential, a 304 response — a non-2xx
status — yields a True (success) return, because the status check only
raises for 400–599; this refutes the clause that any non-2xx response yields
failure. -/
theorem C3_non2xx_success_counterexample :
    (post_linkedin_update ⟨some (some "tok"), some "urn:li:person:X"⟩ "hi"
        (.response 304)).result = .ok true ∧
    (post_linkedin_update ⟨some (some "tok"), some "urn:li:person:X"⟩ "hi"
        (.response 304)).requests = 1 := by
  constructor <;> rfl

/-- C3 (amended): with the access-token key present and a truthy user URN,
`post_linkedin_update` issues exactly one outbound request with no retry and
no token refresh; the outcome maps a response to success exactly when its
status is outside 400–599 (so every 2xx succeeds, every 4xx or 5xx fails,
but 1xx and 3xx also succeed), and any transport error or unexpected
exception to failure; the return is always a plain boolean. -/
theorem C3_publish_request_mapping (st : CredState) (text : String)
    (net : NetOutcome)
    (htok : st.tokenInfo ≠ none) (hurn : pyTruthy st.userUrn = true) :
    (post_linkedin_update st text net).requests = 1 ∧
    ((post_linkedin_update st text net).result = .ok true ↔
      ∃ s, net = .response s ∧ raiseForStatusRaises s = false) ∧
    ((post_linkedin_update st text net).result = .ok true ∨
      (post_linkedin_update st text net).result = .ok false) := by
  have hurn' : ¬ (pyTruthy st.userUrn = false) := by simp [hurn]
  unfold post_linkedin_update
  rw [if_neg htok, if_neg hurn']
  cases net with
  | transportError => simp [postTryBody]
  | otherException => simp [postTryBody]
  | response s =>
    by_cases hs : raiseForStatusRaises s = true
    · simp [postTryBody, hs]
    · simp only [Bool.not_eq_true] at hs
      refine ⟨by simp [postTryBody, hs], ?_, by simp [postTryBody, hs]⟩
      simp only [postTryBody, hs, if_false]
      exact ⟨fun _ => ⟨s, rfl, hs⟩, fun _ => rfl⟩

/-- Witness for C3 (amended) at a concrete input: a 201 response succeeds. -/
theorem C3_publish_request_mapping_witness :
    (post_linkedin_update ⟨some (some "tok"), some "urn:li:person:X"⟩ "hi"
        (.response 201)).requests = 1 ∧
    ((post_linkedin_update ⟨some (some "tok"), some "urn:li:person:X"⟩ "hi"
        (.response 201)).result = .ok true ↔
      ∃ s, NetOutcome.response 201 = .response s ∧ raiseForStatusRaises s = false) ∧
    ((post_linkedin_update ⟨some (some "tok"), some "urn:li:person:X"⟩ "hi"
        (.response 201)).result = .ok true ∨
      (post_linkedin_update ⟨some (some "tok"), some "urn:li:person:X"⟩ "hi"
        (.response 201)).result = .ok false) :=
  C3_publish_request_mapping ⟨some (some "tok"), some "urn:li:person:X"⟩ "hi"
    (.response 201) (by simp) (by decide)

/-- C4 counterexample: the token exchange succeeds but the identity lookup
fails; the flow returns failure yet `token_info` has already been replaced
with the new token while `user_urn` keeps its old value — a partial update
on a failure path, refuting the clause that failure leaves the credential
unchanged and that it is never partially updated. -/
theorem C4_partial_update_counterexample :
    (perform_oauth_flow (some "cid") (some "cs")
        ⟨some (some "old"), some "urn:li:person:OLD"⟩ "cb" (.ok "new")
        .requestFails).success = false ∧
    (perform_oauth_flow (some "cid") (some "cs")
        ⟨some (some "old"), some "urn:li:person:OLD"⟩ "cb" (.ok "new")
        .requestFails).state =
      ⟨some (some "new"), some "urn:li:person:OLD"⟩ ∧
    (⟨some (some "new"), some "urn:li:person:OLD"⟩ : CredState) ≠
      ⟨some (some "old"), some "urn:li:person:OLD"⟩ := by
  refine ⟨rfl, rfl, ?_⟩
  decide

/-- C4 (amended): when `perform_oauth_flow` fails before the token exchange
has produced a token — missing client config, empty pasted redirect URL, or
an exception from the exchange itself (which includes a mismatching state
parameter) — the credential state is left entirely unchanged.  But once the
exchange has succeeded, `token_info` is replaced with the new token even if
the flow subsequently fails at identity resolution; such a failure leaves
`user_urn` unchanged, so the credential is then partially updated rather
than replaced wholesale. -/
theorem C4_credential_update_characterisation (cid csec : Option String)
    (st : CredState) (rr : String) (ft : FetchTokenOutcome) (pr : ProfileOutcome) :
    (((pyTruthy cid = false ∨ pyTruthy csec = false) ∨ rr = "" ∨ ft = .raises) →
      (perform_oauth_flow cid csec st rr ft pr).state = st) ∧
    (∀ tok, ft = .ok tok → pyTruthy cid = true → pyTruthy csec = true → rr ≠ "" →
      (perform_oauth_flow cid csec st rr ft pr).state.tokenInfo = some (some tok) ∧
      ((perform_oauth_flow cid csec st rr ft pr).success = false →
        (perform_oauth_flow cid csec st rr ft pr).state.userUrn = st.userUrn)) := by
  constructor
  · intro hfail
    unfold perform_oauth_flow
    by_cases hcfg : pyTruthy cid = false ∨ pyTruthy csec = false
    · rw [if_pos hcfg]
    · rw [if_neg hcfg]
      by_cases hrr : rr = ""
      · rw [if_pos hrr]
      · rw [if_neg hrr]
        rcases hfail with h | h | h
        · exact absurd h hcfg
        · exact absurd h hrr
        · rw [h]
  · intro tok hft hcid hcsec hrr
    have hcfg : ¬(pyTruthy cid = false ∨ pyTruthy csec = false) := by
      simp [hcid, hcsec]
    unfold perform_oauth_flow
    rw [if_neg hcfg, if_neg hrr, hft]
    cases pr with
    | requestFails => exact ⟨rfl, fun _ => rfl⟩
    | jsonNoId => exact ⟨rfl, fun _ => rfl⟩
    | jsonWithId i => exact ⟨rfl, fun hc => by simp at hc⟩

/-- Witness for C4 (amended) at a concrete input: an exchange that raises
(as on a state mismatch) leaves the credential unchanged. -/
theorem C4_credential_update_characterisation_witness :
    (perform_oauth_flow (some "cid") (some "cs") ⟨none, none⟩ "cb" .raises
        .jsonNoId).state = ⟨none, none⟩ :=
  (C4_credential_update_characterisation (some "cid") (some "cs") ⟨none, none⟩ "cb"
      .raises .jsonNoId).1 (Or.inr (Or.inr rfl))

/-- C5 counterexample: with a present credential, `post_linkedin_update`
called with empty text issues the network request — the empty body is sent
and the call even succeeds — refuting the claim that empty text is rejected
with EmptyContent before any network call. -/
theorem C5_empty_text_sends_request :
    (post_linkedin_update ⟨some (some "tok"), some "urn:li:person:X"⟩ ""
        (.response 201)).requests = 1 ∧
    (post_linkedin_update ⟨some (some "tok"), some "urn:li:person:X"⟩ ""
        (.response 201)).sentBody = some "" ∧
    (post_linkedin_update ⟨some (some "tok"), some "urn:li:person:X"⟩ ""
        (.response 201)).result = .ok true :=
  ⟨rfl, rfl, rfl⟩

/-- C5 (amended): the source performs no text validation at all: with a
present credential, publish with empty text is not rejected — it issues the
single network request carrying the empty body (any rejection of empty
content happens vendor-side, not in this code). -/
theorem C5_no_empty_text_validation (st : CredState) (net : NetOutcome)
    (htok : st.tokenInfo ≠ none) (hurn : pyTruthy st.userUrn = true) :
    (post_linkedin_update st "" net).requests = 1 ∧
    (post_linkedin_update st "" net).sentBody = some "" := by
  have hurn' : ¬ (pyTruthy st.userUrn = false) := by simp [hurn]
  unfold post_linkedin_update
  rw [if_neg htok, if_neg hurn']
  cases hb : postTryBody net with
  | ok b => exact ⟨rfl, rfl⟩
  | raised e => cases e <;> exact ⟨rfl, rfl⟩

/-- Witness for C5 (amended) at a concrete input. -/
theorem C5_no_empty_text_validation_witness :
    (post_linkedin_update ⟨some (some "tok"), some "urn:li:person:X"⟩ ""
        .transportError).requests = 1 ∧
    (post_linkedin_update ⟨some (some "tok"), some "urn:li:person:X"⟩ ""
        .transportError).sentBody = some "" :=
  C5_no_empty_text_validation ⟨some (some "tok"), some "urn:li:person:X"⟩
    .transportError (by simp) (by decide)
